import Mathlib

/-!
Verification development for the `vue-template-diagnostic` repository: an
abstract type model (`TypeKind`, types, symbol tables), a TypeScript-backed
adapter (`TypeScriptType`, `TypeScriptTypeRepository`), a static stub
repository, and the expression type-checker with its operator rules.

The adapter and the stub repository are embedded from the sources
(`src/unnamed/part_000` and `src/test/stubs/type-repository.ts`).  The checker
itself (`src/checker.ts`), the parser and the core type/symbol modules are not
part of the provided sources — only their test suite is — so those definitions
are modelled from the specification and validated against the concrete
expectations of `src/test/checker.spec.ts`.
-/

namespace VueTemplateDiagnostic

/-- Modelled from the spec: the `TypeKind` enumeration of the missing
`src/type.ts` module.  The spec fixes it as the closed enumeration
`{Any, Boolean, String, Number, Symbol, Undefined, Null, Object, Function,
Other}`; the adapter, the stub and the tests all refer to these members. -/
inductive TypeKind where
  | Any
  | Boolean
  | String
  | Number
  | Symbol
  | Undefined
  | Null
  | Object
  | Function
  | Other
deriving DecidableEq

/-- A checker-level view of a `Type` value: its display name and its
`TypeKind`.  (`members` and `callSignatures` of the full `Type` contract are
modelled separately on the adapter side, where the sources are available.) -/
structure Ty where
  name : String
  kind : TypeKind
deriving DecidableEq

def anyType : Ty := ⟨"any", TypeKind.Any⟩

def nullType : Ty := ⟨"null", TypeKind.Null⟩

def undefinedType : Ty := ⟨"undefined", TypeKind.Undefined⟩

/-- The stub repository's `number` type (`src/test/stubs/type-repository.ts`),
also the `BuiltIn.number` used by the checker tests. -/
def numberType : Ty := ⟨"number", TypeKind.Number⟩

def stringType : Ty := ⟨"string", TypeKind.String⟩

def booleanType : Ty := ⟨"boolean", TypeKind.Boolean⟩

def symbolType : Ty := ⟨"symbol", TypeKind.Symbol⟩

/-- Modelled from the spec: the object-literal type produced by the missing
checker/type modules for `{}` literals; the `in`/`instanceof` tests require it
to classify as `TypeKind.Object`. -/
def objectType : Ty := ⟨"object", TypeKind.Object⟩

/-- A scope binding: `{ name, type }` (spec §3, `Symbol`). -/
structure Symbol where
  name : String
  type : Ty
deriving DecidableEq

/-- Modelled from the spec: the missing `src/symbols.ts` `SymbolTable` is an
ordered collection of symbols with lookup by name. -/
abbrev SymbolTable := List Symbol

/-- Modelled from the spec: lookup-by-name returns an absent signal (`none`)
when the name is not bound (spec §4.3). -/
def SymbolTable.lookupByName (table : SymbolTable) (name : String) : Option Symbol :=
  table.find? (fun s => s.name = name)

/-- A diagnostic `{ message, start, end }` with half-open character offsets
(spec §6).  The source field `end` is a reserved word in Lean and is called
`stop` here. -/
structure Diagnostic where
  message : String
  start : Nat
  stop : Nat
deriving DecidableEq

/-! ## The checker (modelled from the spec)

`src/checker.ts` and `src/parser.ts` are not among the provided sources; the
definitions below follow spec §4.4 (identifier resolution, the binary-operator
rule table, the span policy) with the exact diagnostic messages taken from
`src/test/checker.spec.ts`.  Expressions carry the source spans the parser
would attach. -/

/-- Modelled from the spec: the expression AST produced by the missing parser,
restricted to the literal forms and operators the checker dispatches on.  Each
node carries its half-open source span. -/
inductive Expr where
  | num (start stop : Nat)
  | str (start stop : Nat)
  | bool (start stop : Nat)
  | nullLit (start stop : Nat)
  | obj (start stop : Nat)
  | ident (name : String) (start stop : Nat)
  | binary (op : String) (lhs rhs : Expr) (start stop : Nat)

def Expr.span : Expr → Nat × Nat
  | .num s e => (s, e)
  | .str s e => (s, e)
  | .bool s e => (s, e)
  | .nullLit s e => (s, e)
  | .obj s e => (s, e)
  | .ident _ s e => (s, e)
  | .binary _ _ _ s e => (s, e)

/-- Modelled from the spec: the operator-rule table of §4.4, producing the
diagnostics for one binary node given the already-computed operand types, the
operand spans and the whole node's span.  Messages are the ones asserted by
`src/test/checker.spec.ts`. -/
def binOpDiagnostics (op : String) (lt rt : Ty)
    (lspan rspan wholeSpan : Nat × Nat) : List Diagnostic :=
  if op = "+" then
    if (lt.kind = TypeKind.Number ∧ rt.kind = TypeKind.Number) ∨
        lt.kind = TypeKind.String ∨ rt.kind = TypeKind.String ∨
        lt.kind = TypeKind.Any ∨ rt.kind = TypeKind.Any then
      []
    else
      [⟨"The binary operator '+' cannot be applied to type '" ++ lt.name ++
          "' and '" ++ rt.name ++ "'", wholeSpan.1, wholeSpan.2⟩]
  else if op = "*" ∨ op = "/" ∨ op = "-" then
    (if lt.kind = TypeKind.Number ∨ lt.kind = TypeKind.Any then []
     else
       [⟨"The left-hand side of a binary operator '" ++ op ++
           "' must be of type 'number' or 'any'", lspan.1, lspan.2⟩]) ++
    (if rt.kind = TypeKind.Number ∨ rt.kind = TypeKind.Any then []
     else
       [⟨"The right-hand side of a binary operator '" ++ op ++
           "' must be of type 'number' or 'any'", rspan.1, rspan.2⟩])
  else if op = "instanceof" then
    (if lt.kind = TypeKind.Object ∨ lt.kind = TypeKind.Any then []
     else
       [⟨"The left-hand side of 'instanceof' must be of type 'any' or 'object'",
          lspan.1, lspan.2⟩]) ++
    (if rt.kind = TypeKind.Function ∨ rt.kind = TypeKind.Any then []
     else
       [⟨"The right-hand side of 'instanceof' must be of type 'any' or 'Function'",
          rspan.1, rspan.2⟩])
  else if op = "in" then
    (if lt.kind = TypeKind.Number ∨ lt.kind = TypeKind.String ∨
        lt.kind = TypeKind.Symbol ∨ lt.kind = TypeKind.Any then []
     else
       [⟨"The left-hand side of a 'in' operator must be of type 'any', 'number', 'string' or 'symbol'",
          lspan.1, lspan.2⟩]) ++
    (if rt.kind = TypeKind.Object ∨ rt.kind = TypeKind.Any then []
     else
       [⟨"The right-hand side of a 'in' operator must be of type 'any' or 'object'",
          rspan.1, rspan.2⟩])
  else []

/-- Modelled from the spec: the result type the checker attributes to a binary
node for rule evaluation in the enclosing subtree.  `+` yields `any` when a
side is `any`, `string` when a side is a string, `number` otherwise (the tests
need string-concatenation and numeric-addition chains to check cleanly);
arithmetic yields `number`; equality, `instanceof` and `in` yield `boolean`. -/
def binOpResultType (op : String) (lt rt : Ty) : Ty :=
  if op = "+" then
    if lt.kind = TypeKind.Any ∨ rt.kind = TypeKind.Any then anyType
    else if lt.kind = TypeKind.String ∨ rt.kind = TypeKind.String then stringType
    else numberType
  else if op = "*" ∨ op = "/" ∨ op = "-" then numberType
  else booleanType

/-- Modelled from the spec: the recursive walk of the missing
`src/checker.ts`, computing each subexpression's type together with the
diagnostics it contributes.  Identifier lookup failures produce an
"is not defined" diagnostic and the operand is treated as `any` (spec §4.4). -/
def checkExpr (scope : SymbolTable) : Expr → Ty × List Diagnostic
  | .num _ _ => (numberType, [])
  | .str _ _ => (stringType, [])
  | .bool _ _ => (booleanType, [])
  | .nullLit _ _ => (nullType, [])
  | .obj _ _ => (objectType, [])
  | .ident name s e =>
    match SymbolTable.lookupByName scope name with
    | some sym => (sym.type, [])
    | none => (anyType, [⟨"'" ++ name ++ "' is not defined", s, e⟩])
  | .binary op lhs rhs s e =>
    let l := checkExpr scope lhs
    let r := checkExpr scope rhs
    (binOpResultType op l.1 r.1,
      l.2 ++ r.2 ++ binOpDiagnostics op l.1 r.1 lhs.span rhs.span (s, e))

/-- Modelled from the spec: `checkExpression(root, scope)` returns the ordered
diagnostic sequence (spec §4.4). -/
def checkExpression (root : Expr) (scope : SymbolTable) : List Diagnostic :=
  (checkExpr scope root).2

/-! ### Concrete ASTs of the test expressions (spans as in the test suite) -/

/-- `1 + true` -/
def astOnePlusTrue : Expr := .binary "+" (.num 0 1) (.bool 4 8) 0 8

/-- `foo + bar + 123` -/
def astFooPlusBarPlus123 : Expr :=
  .binary "+" (.binary "+" (.ident "foo" 0 3) (.ident "bar" 6 9) 0 9) (.num 12 15) 0 15

/-- `true - 42` -/
def astTrueMinus42 : Expr := .binary "-" (.bool 0 4) (.num 7 9) 0 9

/-- `12 === {}` -/
def astTwelveTripleEqObj : Expr := .binary "===" (.num 0 2) (.obj 7 9) 0 9

/-- `foo instanceof Bar` -/
def astFooInstanceofBar : Expr :=
  .binary "instanceof" (.ident "foo" 0 3) (.ident "Bar" 15 18) 0 18

/-- Scope `{foo: number}` of the undefined-variable test. -/
def fooNumberScope : SymbolTable := [⟨"foo", numberType⟩]

/-- Scope `{foo: Object-kind, Bar: Function-kind}` of the `instanceof` test. -/
def instanceofScope : SymbolTable :=
  [⟨"foo", ⟨"Bar", TypeKind.Object⟩⟩, ⟨"Bar", ⟨"typeof Bar", TypeKind.Function⟩⟩]

/-! ## The TypeScript-backed adapter (`src/unnamed/part_000`)

The host compiler (`typescript`) is external; its surface is modelled by the
data the adapter actually reads: a type's flag bits, its property list and its
call signatures.  Each named `ts.TypeFlags` mask the adapter tests is one
boolean field (the numeric bit values belong to the external host and are not
part of this repository). -/

/-- The host type-flag bits read by `TypeScriptType.kind`: one field per named
`ts.TypeFlags` mask appearing in the source's tests. -/
structure TypeFlags where
  any : Bool
  boolean : Bool
  booleanLike : Bool
  booleanLiteral : Bool
  string : Bool
  stringLike : Bool
  stringLiteral : Bool
  number : Bool
  numberLike : Bool
  esSymbol : Bool
  undefined : Bool
  null : Bool
deriving DecidableEq

/-- A host call signature as the adapter reads it: the parameter types
resolved at the anchor location and the return type. -/
structure HostSignature where
  parameterTypes : List TypeFlags
  returnType : TypeFlags
deriving DecidableEq

/-- The surface of a host `ts.Type` used by the adapter. -/
structure TsType where
  flags : TypeFlags
  properties : List String
  hostCallSignatures : List HostSignature
deriving DecidableEq

/-- A wrapped member symbol (`TypeScriptSymbol`), anchored at the adapter's
node. -/
structure TypeScriptSymbol where
  name : String
deriving DecidableEq

/-- An adapter `CallSignature`: `{ argTypes, returnType }` as built by the
`callSignatures` getter. -/
structure CallSignature where
  argTypes : List TypeFlags
  returnType : TypeFlags
deriving DecidableEq

/-- A `TypeScriptType` instance: the wrapped host type together with the two
lazily-populated caches `_members` and `_callSignatures` (both start empty,
matching the uninitialized/`null` fields of the source class). -/
structure TypeScriptType where
  tsType : TsType
  membersCache : Option (List TypeScriptSymbol)
  callSignaturesCache : Option (List CallSignature)
deriving DecidableEq

/-- A freshly constructed `TypeScriptType` wrapping a host type. -/
def TypeScriptType.new (t : TsType) : TypeScriptType := ⟨t, none, none⟩

/-- `TypeScriptType.kind`: classifies the host flag bits into a `TypeKind`,
embedded test-for-test and in the same order as the source's if/else chain. -/
def TypeScriptType.kind (t : TypeScriptType) : TypeKind :=
  let f := t.tsType.flags
  if f.any then TypeKind.Any
  else if f.boolean || f.booleanLike || f.booleanLiteral then TypeKind.Boolean
  else if f.string || f.stringLike || f.stringLiteral then TypeKind.String
  else if f.number || f.numberLike then TypeKind.Number
  else if f.esSymbol then TypeKind.Symbol
  else if f.undefined then TypeKind.Undefined
  else if f.null then TypeKind.Null
  else TypeKind.Other

/-- The spec's description of the classification (spec §4.2/§9): an ordered
list of flag tests, searched for the first match, defaulting to `Other`.
Stated separately from `TypeScriptType.kind` so the precedence claim is a
comparison of the two. -/
def kindClassificationSpec (f : TypeFlags) : TypeKind :=
  let tests : List ((TypeFlags → Bool) × TypeKind) :=
    [ (fun g => g.any, TypeKind.Any),
      (fun g => g.boolean || g.booleanLike || g.booleanLiteral, TypeKind.Boolean),
      (fun g => g.string || g.stringLike || g.stringLiteral, TypeKind.String),
      (fun g => g.number || g.numberLike, TypeKind.Number),
      (fun g => g.esSymbol, TypeKind.Symbol),
      (fun g => g.undefined, TypeKind.Undefined),
      (fun g => g.null, TypeKind.Null) ]
  ((tests.find? (fun p => p.1 f)).map Prod.snd).getD TypeKind.Other

/-- The computation the `members` getter performs on a cache miss: wrap each
host property as a `TypeScriptSymbol` (the `SimpleSymbolTable` contents). -/
def computeMembers (t : TsType) : List TypeScriptSymbol :=
  t.properties.map (fun n => ⟨n⟩)

/-- The computation the `callSignatures` getter performs on a cache miss: map
each host signature to `{ argTypes, returnType }`. -/
def computeCallSignatures (t : TsType) : List CallSignature :=
  t.hostCallSignatures.map (fun s => ⟨s.parameterTypes, s.returnType⟩)

/-- The `members` getter: returns the cached table if present, otherwise
computes it, stores it and returns it (the returned state carries the
assignment to `_members`). -/
def TypeScriptType.members (t : TypeScriptType) :
    List TypeScriptSymbol × TypeScriptType :=
  match t.membersCache with
  | some m => (m, t)
  | none =>
    let m := computeMembers t.tsType
    (m, { t with membersCache := some m })

/-- The `callSignatures` getter, memoized the same way as `members`. -/
def TypeScriptType.callSignatures (t : TypeScriptType) :
    List CallSignature × TypeScriptType :=
  match t.callSignaturesCache with
  | some cs => (cs, t)
  | none =>
    let cs := computeCallSignatures t.tsType
    (cs, { t with callSignaturesCache := some cs })

/-! ### The repository (`TypeScriptTypeRepository`) -/

/-- How a repository call fails: a node `assert(...)` violation or a
`throw new Error(...)`. -/
inductive RepoFailure where
  | assertionFailed (message : String)
  | thrown (message : String)
deriving DecidableEq

/-- A `TypeScriptTypeRepository` instance: the one-shot `cached` flag and the
`Map<TypeKind, Type>` built-in cache (modelled as a function to `Option`). -/
structure TypeScriptTypeRepository where
  cached : Bool
  cache : TypeKind → Option Ty

/-- A freshly constructed repository: flag down, cache empty. -/
def TypeScriptTypeRepository.new : TypeScriptTypeRepository :=
  ⟨false, fun _ => none⟩

/-- `Map.set`: point-update of the cache. -/
def cacheSet (cache : TypeKind → Option Ty) (k : TypeKind) (t : Ty) :
    TypeKind → Option Ty :=
  fun q => if q = k then some t else cache q

/-- A fixture variable declaration as the walk sees it: the declared-type
annotation's text (`prop.type.getText(source)`) and the host type resolved at
the declaration (`checker.getTypeAtLocation(prop)`), classified. -/
structure FixtureDecl where
  typeText : String
  declType : Ty
deriving DecidableEq

/-- The cache writes executed for one fixture variable declaration by the
inner `switch` of `search` in `ensureLoadBuiltInTypes`.  None of the source's
`case` bodies ends in `break` or `return`, so under TypeScript semantics a
matched label executes its own body and every later body down to `default`;
this list is exactly that suffix of kinds, in source order. -/
def declCaseKinds (typeText : String) : List TypeKind :=
  if typeText = "string" then
    [TypeKind.String, TypeKind.Number, TypeKind.Boolean, TypeKind.Symbol]
  else if typeText = "number" then
    [TypeKind.Number, TypeKind.Boolean, TypeKind.Symbol]
  else if typeText = "boolean" then [TypeKind.Boolean, TypeKind.Symbol]
  else if typeText = "symbol" then [TypeKind.Symbol]
  else []

/-- The effect of `search` on the cache at one variable declaration: each
executed `case` body stores that declaration's type under its kind. -/
def searchDecl (cache : TypeKind → Option Ty) (d : FixtureDecl) :
    TypeKind → Option Ty :=
  (declCaseKinds d.typeText).foldl (fun c k => cacheSet c k d.declType) cache

/-- Modelled from the spec: the fixture source `data/type-provider.ts` is not
among the provided sources; per spec §4.2 it declares one canonical variable
per primitive kind (`string`, `number`, `boolean`, `symbol`), listed here in
that order with the host types such declarations resolve to. -/
def fixtureDecls : List FixtureDecl :=
  [⟨"string", stringType⟩, ⟨"number", numberType⟩,
   ⟨"boolean", booleanType⟩, ⟨"symbol", symbolType⟩]

/-- `ensureLoadBuiltInTypes`: returns immediately when the one-shot flag is
set; otherwise sets the flag, compiles the fixture and walks its variable
declarations, dispatching each through `searchDecl`. -/
def ensureLoadBuiltInTypes (repo : TypeScriptTypeRepository) :
    TypeScriptTypeRepository :=
  if repo.cached then repo
  else ⟨true, fixtureDecls.foldl searchDecl repo.cache⟩

/-- The cache read plus the trailing `assert(res, ...)` of `getTypeByKind`. -/
def builtInLookup (repo : TypeScriptTypeRepository) (k : TypeKind) :
    Except RepoFailure (Ty × TypeScriptTypeRepository) :=
  match repo.cache k with
  | some t => Except.ok (t, repo)
  | none => Except.error (RepoFailure.assertionFailed
      "A type of the type kind is not found")

/-- `TypeScriptTypeRepository.getTypeByKind`: the leading
`assert(kind !== TypeKind.Other, ...)`, the three singleton short-circuits,
the idempotent built-in load, and the `switch` over the remaining kinds whose
`default` branch throws `Unexpected type kind`. -/
def TypeScriptTypeRepository.getTypeByKind (repo : TypeScriptTypeRepository)
    (kind : TypeKind) : Except RepoFailure (Ty × TypeScriptTypeRepository) :=
  if kind = TypeKind.Other then
    Except.error (RepoFailure.assertionFailed
      "Cannot specify a type from TypeKind.Other")
  else if kind = TypeKind.Any then Except.ok (anyType, repo)
  else if kind = TypeKind.Null then Except.ok (nullType, repo)
  else if kind = TypeKind.Undefined then Except.ok (undefinedType, repo)
  else
    match kind with
    | TypeKind.String => builtInLookup (ensureLoadBuiltInTypes repo) TypeKind.String
    | TypeKind.Number => builtInLookup (ensureLoadBuiltInTypes repo) TypeKind.Number
    | TypeKind.Boolean => builtInLookup (ensureLoadBuiltInTypes repo) TypeKind.Boolean
    | TypeKind.Symbol => builtInLookup (ensureLoadBuiltInTypes repo) TypeKind.Symbol
    | _ => Except.error (RepoFailure.thrown "Unexpected type kind")

/-- The static stub repository of `src/test/stubs/type-repository.ts`: a
`switch` covering `Number`, `String`, `Boolean`, `Null`, `Undefined` and
`Any`, whose `default` branch throws `Unknown type kind`. -/
def typeRepository.getTypeByKind (kind : TypeKind) : Except RepoFailure Ty :=
  match kind with
  | TypeKind.Number => Except.ok numberType
  | TypeKind.String => Except.ok stringType
  | TypeKind.Boolean => Except.ok booleanType
  | TypeKind.Null => Except.ok nullType
  | TypeKind.Undefined => Except.ok undefinedType
  | TypeKind.Any => Except.ok anyType
  | _ => Except.error (RepoFailure.thrown "Unknown type kind")

/-! ## Helper lemmas -/

/-- The one-shot guard: loading an already-loaded repository changes
nothing. -/
theorem ensureLoadBuiltInTypes_idem (repo : TypeScriptTypeRepository) :
    ensureLoadBuiltInTypes (ensureLoadBuiltInTypes repo) =
      ensureLoadBuiltInTypes repo := by
  rcases repo with ⟨c, cache⟩
  cases c <;> rfl

/-- After a load the one-shot flag is set. -/
theorem ensureLoadBuiltInTypes_cached (repo : TypeScriptTypeRepository) :
    (ensureLoadBuiltInTypes repo).cached = true := by
  rcases repo with ⟨c, cache⟩
  cases c <;> rfl

/-! ## The claims -/

/-- Claim C1: in `ensureLoadBuiltInTypes`, the dispatch over a fixture
variable declaration's declared-type text has no stop after a match — a
declaration whose type text is `string` populates the `String`, `Number`,
`Boolean` and `Symbol` cache entries with that declaration's type, a `number`
declaration populates `Number`, `Boolean` and `Symbol` (leaving `String`
untouched), a `boolean` declaration populates `Boolean` and `Symbol`, and a
`symbol` declaration populates `Symbol` — rather than exactly one kind per
declaration. -/
theorem claim1_fallthrough_populates_later_kinds :
    ∀ (cache : TypeKind → Option Ty) (t : Ty),
      (searchDecl cache ⟨"string", t⟩ TypeKind.String = some t ∧
       searchDecl cache ⟨"string", t⟩ TypeKind.Number = some t ∧
       searchDecl cache ⟨"string", t⟩ TypeKind.Boolean = some t ∧
       searchDecl cache ⟨"string", t⟩ TypeKind.Symbol = some t) ∧
      (searchDecl cache ⟨"number", t⟩ TypeKind.String = cache TypeKind.String ∧
       searchDecl cache ⟨"number", t⟩ TypeKind.Number = some t ∧
       searchDecl cache ⟨"number", t⟩ TypeKind.Boolean = some t ∧
       searchDecl cache ⟨"number", t⟩ TypeKind.Symbol = some t) ∧
      (searchDecl cache ⟨"boolean", t⟩ TypeKind.String = cache TypeKind.String ∧
       searchDecl cache ⟨"boolean", t⟩ TypeKind.Number = cache TypeKind.Number ∧
       searchDecl cache ⟨"boolean", t⟩ TypeKind.Boolean = some t ∧
       searchDecl cache ⟨"boolean", t⟩ TypeKind.Symbol = some t) ∧
      (searchDecl cache ⟨"symbol", t⟩ TypeKind.String = cache TypeKind.String ∧
       searchDecl cache ⟨"symbol", t⟩ TypeKind.Number = cache TypeKind.Number ∧
       searchDecl cache ⟨"symbol", t⟩ TypeKind.Boolean = cache TypeKind.Boolean ∧
       searchDecl cache ⟨"symbol", t⟩ TypeKind.Symbol = some t) := by
  intro cache t
  exact ⟨⟨rfl, rfl, rfl, rfl⟩, ⟨rfl, rfl, rfl, rfl⟩,
    ⟨rfl, rfl, rfl, rfl⟩, rfl, rfl, rfl, rfl⟩

/-- Claim C2: `TypeScriptType.kind` classifies host type flags by the fixed
precedence `Any`, boolean-like, string-like, number-like, `Symbol`,
`Undefined`, `Null`, defaulting to `Other`: it coincides with the
specification's first-match search over that ordered test list
(`kindClassificationSpec`), so the first matching test determines the result
even when several flag bits are set. -/
theorem claim2_kind_precedence_order :
    ∀ t : TypeScriptType,
      TypeScriptType.kind t = kindClassificationSpec t.tsType.flags := by
  rintro ⟨⟨f, props, sigs⟩, mc, cc⟩
  rcases f with ⟨a, b, c, d, e, g, h, i, j, k, l, m⟩
  cases a <;> cases b <;> cases c <;> cases d <;> cases e <;> cases g <;>
    cases h <;> cases i <;> cases j <;> cases k <;> cases l <;> cases m <;> rfl

/-- Claim C10: the adapter's classification never yields `TypeKind.Object` or
`TypeKind.Function` — every host type matching none of the tested flag groups
lands in `TypeKind.Other`, although the `TypeKind` enumeration has `Object`
and `Function` members and the checker's `instanceof`/`in` rules are stated in
terms of them. -/
theorem claim10_kind_never_object_or_function :
    ∀ t : TypeScriptType,
      TypeScriptType.kind t ≠ TypeKind.Object ∧
      TypeScriptType.kind t ≠ TypeKind.Function := by
  intro t
  simp only [TypeScriptType.kind]
  split_ifs <;> simp

/-- Claim C7: the checker never produces a diagnostic for an equality node
itself (`===` and the equivalent equality forms `==`, `!==`, `!=`), whatever
the operand types; in particular `12 === {}` checks without diagnostics. -/
theorem claim7_equality_never_diagnoses :
    ∀ (lt rt : Ty) (ls rs ws : Nat × Nat),
      binOpDiagnostics "===" lt rt ls rs ws = [] ∧
      binOpDiagnostics "==" lt rt ls rs ws = [] ∧
      binOpDiagnostics "!==" lt rt ls rs ws = [] ∧
      binOpDiagnostics "!=" lt rt ls rs ws = [] ∧
      checkExpression astTwelveTripleEqObj [] = [] := by
  intro lt rt ls rs ws
  exact ⟨rfl, rfl, rfl, rfl, rfl⟩

/-- Claim C3: a `+` node yields no diagnostic exactly when both operand kinds
are `Number`, or either is `String`, or either is `Any`; otherwise it yields
exactly one diagnostic whose message names both operand types and whose span
is the whole binary expression — as on `1 + true` in the empty scope, which
yields exactly the diagnostic with span `[0, 8]`. -/
theorem claim3_plus_rule :
    ∀ (lt rt : Ty) (ls rs ws : Nat × Nat),
      (binOpDiagnostics "+" lt rt ls rs ws =
        if (lt.kind = TypeKind.Number ∧ rt.kind = TypeKind.Number) ∨
            lt.kind = TypeKind.String ∨ rt.kind = TypeKind.String ∨
            lt.kind = TypeKind.Any ∨ rt.kind = TypeKind.Any then []
        else
          [⟨"The binary operator '+' cannot be applied to type '" ++ lt.name ++
              "' and '" ++ rt.name ++ "'", ws.1, ws.2⟩]) ∧
      (binOpDiagnostics "+" lt rt ls rs ws = [] ↔
        (lt.kind = TypeKind.Number ∧ rt.kind = TypeKind.Number) ∨
          lt.kind = TypeKind.String ∨ rt.kind = TypeKind.String ∨
          lt.kind = TypeKind.Any ∨ rt.kind = TypeKind.Any) ∧
      checkExpression astOnePlusTrue [] =
        [⟨"The binary operator '+' cannot be applied to type 'number' and 'boolean'",
            0, 8⟩] := by
  intro lt rt ls rs ws
  refine ⟨rfl, ?_, rfl⟩
  by_cases hc : (lt.kind = TypeKind.Number ∧ rt.kind = TypeKind.Number) ∨
      lt.kind = TypeKind.String ∨ rt.kind = TypeKind.String ∨
      lt.kind = TypeKind.Any ∨ rt.kind = TypeKind.Any
  · simp [binOpDiagnostics, hc]
  · simp [binOpDiagnostics, hc]

/-- Claim C4: for each arithmetic operator `*`, `/`, `-`, each operand must be
of kind `Number` or `Any`; a violating operand contributes a diagnostic
spanning exactly that operand (left before right), not the whole expression —
as on `true - 42` in the empty scope, whose single diagnostic spans `[0, 4]`,
the left operand. -/
theorem claim4_arithmetic_rule :
    ∀ (lt rt : Ty) (ls rs ws : Nat × Nat),
      (binOpDiagnostics "*" lt rt ls rs ws =
        (if lt.kind = TypeKind.Number ∨ lt.kind = TypeKind.Any then []
         else
           [⟨"The left-hand side of a binary operator '*' must be of type 'number' or 'any'",
              ls.1, ls.2⟩]) ++
        (if rt.kind = TypeKind.Number ∨ rt.kind = TypeKind.Any then []
         else
           [⟨"The right-hand side of a binary operator '*' must be of type 'number' or 'any'",
              rs.1, rs.2⟩])) ∧
      (binOpDiagnostics "/" lt rt ls rs ws =
        (if lt.kind = TypeKind.Number ∨ lt.kind = TypeKind.Any then []
         else
           [⟨"The left-hand side of a binary operator '/' must be of type 'number' or 'any'",
              ls.1, ls.2⟩]) ++
        (if rt.kind = TypeKind.Number ∨ rt.kind = TypeKind.Any then []
         else
           [⟨"The right-hand side of a binary operator '/' must be of type 'number' or 'any'",
              rs.1, rs.2⟩])) ∧
      (binOpDiagnostics "-" lt rt ls rs ws =
        (if lt.kind = TypeKind.Number ∨ lt.kind = TypeKind.Any then []
         else
           [⟨"The left-hand side of a binary operator '-' must be of type 'number' or 'any'",
              ls.1, ls.2⟩]) ++
        (if rt.kind = TypeKind.Number ∨ rt.kind = TypeKind.Any then []
         else
           [⟨"The right-hand side of a binary operator '-' must be of type 'number' or 'any'",
              rs.1, rs.2⟩])) ∧
      checkExpression astTrueMinus42 [] =
        [⟨"The left-hand side of a binary operator '-' must be of type 'number' or 'any'",
            0, 4⟩] := by
  intro lt rt ls rs ws
  exact ⟨rfl, rfl, rfl, rfl⟩

/-- Claim C5: an `instanceof` node performs two independent checks — the left
operand must be of kind `Object` or `Any`, the right of kind `Function` or
`Any` — each contributing, on violation, a diagnostic spanning its own
operand; when the left is `Object`-kind and the right `Function`-kind (as in
`foo instanceof Bar` under the test scope) nothing is reported, and both
diagnostics fire together when both operands violate their checks. -/
theorem claim5_instanceof_rule :
    ∀ (lt rt : Ty) (ls rs ws : Nat × Nat),
      (binOpDiagnostics "instanceof" lt rt ls rs ws =
        (if lt.kind = TypeKind.Object ∨ lt.kind = TypeKind.Any then []
         else
           [⟨"The left-hand side of 'instanceof' must be of type 'any' or 'object'",
              ls.1, ls.2⟩]) ++
        (if rt.kind = TypeKind.Function ∨ rt.kind = TypeKind.Any then []
         else
           [⟨"The right-hand side of 'instanceof' must be of type 'any' or 'Function'",
              rs.1, rs.2⟩])) ∧
      checkExpression astFooInstanceofBar instanceofScope = [] ∧
      binOpDiagnostics "instanceof" numberType booleanType (0, 3) (15, 18) (0, 18) =
        [⟨"The left-hand side of 'instanceof' must be of type 'any' or 'object'", 0, 3⟩,
         ⟨"The right-hand side of 'instanceof' must be of type 'any' or 'Function'", 15, 18⟩] := by
  intro lt rt ls rs ws
  exact ⟨rfl, rfl, rfl⟩

/-- Claim C6: an identifier not bound in the scope contributes exactly one
diagnostic, `'<name>' is not defined`, spanning the identifier's source range,
and the operand is treated as the `any` type for the rest of the checking of
that subtree; on `foo + bar + 123` with `{foo: number}` the whole check yields
exactly the one diagnostic for `bar` with span `[6, 9]` and no secondary
arithmetic diagnostic. -/
theorem claim6_undefined_identifier :
    ∀ (scope : SymbolTable) (name : String) (s e : Nat),
      SymbolTable.lookupByName scope name = none →
      checkExpr scope (.ident name s e) =
        (anyType, [⟨"'" ++ name ++ "' is not defined", s, e⟩]) ∧
      checkExpression astFooPlusBarPlus123 fooNumberScope =
        [⟨"'bar' is not defined", 6, 9⟩] := by
  intro scope name s e h
  refine ⟨?_, rfl⟩
  simp [checkExpr, h]

/-- Concrete instantiation of `claim6_undefined_identifier` at the empty scope
and the identifier `bar`, discharging its lookup hypothesis by evaluation. -/
theorem claim6_undefined_identifier_witness :
    SymbolTable.lookupByName [] "bar" = none ∧
    (checkExpr [] (.ident "bar" 6 9) =
        (anyType, [⟨"'" ++ "bar" ++ "' is not defined", 6, 9⟩]) ∧
      checkExpression astFooPlusBarPlus123 fooNumberScope =
        [⟨"'bar' is not defined", 6, 9⟩]) :=
  ⟨rfl, claim6_undefined_identifier [] "bar" 6 9 rfl⟩

/-- Counterexample to claim C8 as stated: `TypeKind.Object` is a kind other
than `Other`, yet `getTypeByKind` fails on it in both repositories — the stub
throws `Unknown type kind` and the host-backed repository (here a fresh
instance) throws `Unexpected type kind` — instead of returning a Type. -/
theorem claim8_counterexample_object_kind :
    TypeKind.Object ≠ TypeKind.Other ∧
    typeRepository.getTypeByKind TypeKind.Object =
      Except.error (RepoFailure.thrown "Unknown type kind") ∧
    TypeScriptTypeRepository.getTypeByKind TypeScriptTypeRepository.new
        TypeKind.Object =
      Except.error (RepoFailure.thrown "Unexpected type kind") :=
  ⟨by decide, rfl, rfl⟩

/-- Claim C8 (amended): `getTypeByKind TypeKind.Other` fails immediately with
a precondition violation in both the host-backed repository (assertion) and
the stub (thrown error); `Object` and `Function` also fail, with thrown
errors, in both; the host-backed repository returns a Type without failing for
the seven remaining kinds (`Any`, `Null`, `Undefined`, `String`, `Number`,
`Boolean`, `Symbol`), while the stub does so for `Any`, `Null`, `Undefined`,
`String`, `Number` and `Boolean` but throws for `Symbol`, whose case its
`switch` does not cover. -/
theorem claim8_getTypeByKind_domain :
    (∀ repo : TypeScriptTypeRepository,
      TypeScriptTypeRepository.getTypeByKind repo TypeKind.Other =
        Except.error (RepoFailure.assertionFailed
          "Cannot specify a type from TypeKind.Other")) ∧
    typeRepository.getTypeByKind TypeKind.Other =
      Except.error (RepoFailure.thrown "Unknown type kind") ∧
    (∀ repo : TypeScriptTypeRepository,
      TypeScriptTypeRepository.getTypeByKind repo TypeKind.Function =
        Except.error (RepoFailure.thrown "Unexpected type kind")) ∧
    typeRepository.getTypeByKind TypeKind.Function =
      Except.error (RepoFailure.thrown "Unknown type kind") ∧
    TypeScriptTypeRepository.getTypeByKind TypeScriptTypeRepository.new
        TypeKind.Any = Except.ok (anyType, TypeScriptTypeRepository.new) ∧
    TypeScriptTypeRepository.getTypeByKind TypeScriptTypeRepository.new
        TypeKind.Null = Except.ok (nullType, TypeScriptTypeRepository.new) ∧
    TypeScriptTypeRepository.getTypeByKind TypeScriptTypeRepository.new
        TypeKind.Undefined =
      Except.ok (undefinedType, TypeScriptTypeRepository.new) ∧
    TypeScriptTypeRepository.getTypeByKind TypeScriptTypeRepository.new
        TypeKind.String =
      Except.ok (stringType, ensureLoadBuiltInTypes TypeScriptTypeRepository.new) ∧
    TypeScriptTypeRepository.getTypeByKind TypeScriptTypeRepository.new
        TypeKind.Number =
      Except.ok (numberType, ensureLoadBuiltInTypes TypeScriptTypeRepository.new) ∧
    TypeScriptTypeRepository.getTypeByKind TypeScriptTypeRepository.new
        TypeKind.Boolean =
      Except.ok (booleanType, ensureLoadBuiltInTypes TypeScriptTypeRepository.new) ∧
    TypeScriptTypeRepository.getTypeByKind TypeScriptTypeRepository.new
        TypeKind.Symbol =
      Except.ok (symbolType, ensureLoadBuiltInTypes TypeScriptTypeRepository.new) ∧
    typeRepository.getTypeByKind TypeKind.Any = Except.ok anyType ∧
    typeRepository.getTypeByKind TypeKind.Null = Except.ok nullType ∧
    typeRepository.getTypeByKind TypeKind.Undefined = Except.ok undefinedType ∧
    typeRepository.getTypeByKind TypeKind.String = Except.ok stringType ∧
    typeRepository.getTypeByKind TypeKind.Number = Except.ok numberType ∧
    typeRepository.getTypeByKind TypeKind.Boolean = Except.ok booleanType ∧
    typeRepository.getTypeByKind TypeKind.Symbol = Except.error
      (RepoFailure.thrown "Unknown type kind") := by
  refine ⟨fun repo => rfl, rfl, fun repo => rfl, rfl, rfl, rfl, rfl, rfl, rfl,
    rfl, rfl, rfl, rfl, rfl, rfl, rfl, rfl, rfl⟩

/-- Claim C9: the lazy caches are populated at most once and stable — for any
`TypeScriptType` instance a second `members` access returns the same value
without changing the state, likewise for `callSignatures`; for any repository
instance the built-in load is guarded by a one-shot flag (loading twice equals
loading once, and the flag is set afterwards); and a repeated `getTypeByKind`
call for the same kind on the state a successful call returned yields the same
Type and the same state. -/
theorem claim9_lazy_caches_memoized :
    (∀ t : TypeScriptType,
      TypeScriptType.members (TypeScriptType.members t).2 =
        TypeScriptType.members t) ∧
    (∀ t : TypeScriptType,
      TypeScriptType.callSignatures (TypeScriptType.callSignatures t).2 =
        TypeScriptType.callSignatures t) ∧
    (∀ repo : TypeScriptTypeRepository,
      ensureLoadBuiltInTypes (ensureLoadBuiltInTypes repo) =
          ensureLoadBuiltInTypes repo ∧
        (ensureLoadBuiltInTypes repo).cached = true) ∧
    (∀ (repo : TypeScriptTypeRepository) (k : TypeKind) (t : Ty)
        (repo₂ : TypeScriptTypeRepository),
      TypeScriptTypeRepository.getTypeByKind repo k = Except.ok (t, repo₂) →
      TypeScriptTypeRepository.getTypeByKind repo₂ k = Except.ok (t, repo₂)) := by
  refine ⟨?_, ?_, ?_, ?_⟩
  · rintro ⟨tt, mc, cc⟩
    cases mc <;> rfl
  · rintro ⟨tt, mc, cc⟩
    cases cc <;> rfl
  · intro repo
    exact ⟨ensureLoadBuiltInTypes_idem repo, ensureLoadBuiltInTypes_cached repo⟩
  · intro repo k t repo₂ h
    cases k
    case Any =>
      simp only [TypeScriptTypeRepository.getTypeByKind] at h ⊢
      simp at h
      obtain ⟨h1, h2⟩ := h
      subst h1; subst h2
      simp
    case Null =>
      simp only [TypeScriptTypeRepository.getTypeByKind] at h ⊢
      simp at h
      obtain ⟨h1, h2⟩ := h
      subst h1; subst h2
      simp
    case Undefined =>
      simp only [TypeScriptTypeRepository.getTypeByKind] at h ⊢
      simp at h
      obtain ⟨h1, h2⟩ := h
      subst h1; subst h2
      simp
    case Other =>
      simp [TypeScriptTypeRepository.getTypeByKind] at h
    case Object =>
      simp [TypeScriptTypeRepository.getTypeByKind] at h
    case Function =>
      simp [TypeScriptTypeRepository.getTypeByKind] at h
    case String =>
      simp only [TypeScriptTypeRepository.getTypeByKind, builtInLookup] at h ⊢
      cases hc : (ensureLoadBuiltInTypes repo).cache TypeKind.String with
      | none => rw [hc] at h; simp at h
      | some u =>
        rw [hc] at h
        simp at h
        obtain ⟨h1, h2⟩ := h
        subst h1
        rw [← h2, ensureLoadBuiltInTypes_idem, hc]
        simp
    case Number =>
      simp only [TypeScriptTypeRepository.getTypeByKind, builtInLookup] at h ⊢
      cases hc : (ensureLoadBuiltInTypes repo).cache TypeKind.Number with
      | none => rw [hc] at h; simp at h
      | some u =>
        rw [hc] at h
        simp at h
        obtain ⟨h1, h2⟩ := h
        subst h1
        rw [← h2, ensureLoadBuiltInTypes_idem, hc]
        simp
    case Boolean =>
      simp only [TypeScriptTypeRepository.getTypeByKind, builtInLookup] at h ⊢
      cases hc : (ensureLoadBuiltInTypes repo).cache TypeKind.Boolean with
      | none => rw [hc] at h; simp at h
      | some u =>
        rw [hc] at h
        simp at h
        obtain ⟨h1, h2⟩ := h
        subst h1
        rw [← h2, ensureLoadBuiltInTypes_idem, hc]
        simp
    case Symbol =>
      simp only [TypeScriptTypeRepository.getTypeByKind, builtInLookup] at h ⊢
      cases hc : (ensureLoadBuiltInTypes repo).cache TypeKind.Symbol with
      | none => rw [hc] at h; simp at h
      | some u =>
        rw [hc] at h
        simp at h
        obtain ⟨h1, h2⟩ := h
        subst h1
        rw [← h2, ensureLoadBuiltInTypes_idem, hc]
        simp

/-- Concrete instantiation of the repeated-call conjunct of
`claim9_lazy_caches_memoized`: fetching `Number` from a fresh repository
succeeds, and fetching it again from the returned state yields the same Type
and the same state. -/
theorem claim9_lazy_caches_memoized_witness :
    TypeScriptTypeRepository.getTypeByKind TypeScriptTypeRepository.new
        TypeKind.Number =
      Except.ok (numberType, ensureLoadBuiltInTypes TypeScriptTypeRepository.new) ∧
    TypeScriptTypeRepository.getTypeByKind
        (ensureLoadBuiltInTypes TypeScriptTypeRepository.new) TypeKind.Number =
      Except.ok (numberType, ensureLoadBuiltInTypes TypeScriptTypeRepository.new) :=
  ⟨rfl, claim9_lazy_caches_memoized.2.2.2 TypeScriptTypeRepository.new
    TypeKind.Number numberType
    (ensureLoadBuiltInTypes TypeScriptTypeRepository.new) rfl⟩

end VueTemplateDiagnostic
